import Mathlib

/-!
Shallow embedding of the `specialized-turbo` protocol codec and telemetry
aggregation model (files `protocol.py`, `models.py`, `telemetry.py`).

Modelling conventions:
* A wire byte is `Fin 256`; a buffer is a `List Byte` (Python `bytes`).
* Python `int` raw values are `Nat` (little-endian unsigned decode).
* Python `float` arithmetic is modelled with exact rationals `ℚ`; the
  conversion functions only involve small literals, and Python's `round`
  (banker's rounding, ties to even) is modelled exactly by `pyRound`.
* `parse_message` returns `Except String ParsedMessage`; the Python code
  raises `ValueError` exactly where the model returns `Except.error`.
* The registry `_FIELD_DEFS` dict is modelled as an association list built
  in registration order (its keys are pairwise distinct, proved below, so
  first-match lookup and dict semantics agree).
* `time.monotonic()` timestamps (`last_updated`) are not modelled; no claim
  mentions them.
-/

abbrev Byte := Fin 256

/-- `AssistLevel` enum from `protocol.py` (OFF=0, ECO=1, TRAIL=2, TURBO=3). -/
inductive AssistLevel
  | OFF
  | ECO
  | TRAIL
  | TURBO
deriving DecidableEq, Repr

/-- The integer value of an `AssistLevel` member. -/
def AssistLevel.value : AssistLevel → Nat
  | .OFF => 0
  | .ECO => 1
  | .TRAIL => 2
  | .TURBO => 3

/-- The Python enum member `.name` string. -/
def AssistLevel.enumName : AssistLevel → String
  | .OFF => "OFF"
  | .ECO => "ECO"
  | .TRAIL => "TRAIL"
  | .TURBO => "TURBO"

/-- `AssistLevel(v)` when `v in AssistLevel._value2member_map_`, else `none`. -/
def AssistLevel.ofNat? (v : Nat) : Option AssistLevel :=
  if v = 0 then some .OFF
  else if v = 1 then some .ECO
  else if v = 2 then some .TRAIL
  else if v = 3 then some .TURBO
  else none

/-- Runtime value produced by a conversion function: a Python `int`,
`float` (modelled as `ℚ`), or `AssistLevel` member. -/
inductive PyValue
  | int : ℤ → PyValue
  | float : ℚ → PyValue
  | assist : AssistLevel → PyValue
deriving DecidableEq, Repr

/-- Python 3 `round` on the exact rational model of a float:
round to nearest, ties to even. -/
def pyRound (q : ℚ) : ℤ :=
  let f := ⌊q⌋
  let r := q - f
  if r < 1/2 then f
  else if 1/2 < r then f + 1
  else if f % 2 = 0 then f else f + 1

/-- Little-endian unsigned integer of a byte list
(`int.from_bytes(data, byteorder="little", signed=False)`). -/
def leInt (bs : List Byte) : Nat :=
  bs.foldr (fun b acc => b.val + 256 * acc) 0

/-- `FieldDefinition` from `protocol.py` (the `key` property is `(sender, channel)`). -/
structure FieldDefinition where
  sender : Nat
  channel : Nat
  name : String
  unit : String
  data_size : Nat
  convert : Nat → PyValue

/-- Identity conversion (the default in `_reg`). -/
def convId : Nat → PyValue := fun v => .int v

/-- `lambda v: round(v * 1.1111)` (battery capacity / remaining Wh). -/
def convWh : Nat → PyValue := fun v => .int (pyRound ((v : ℚ) * 11111 / 10000))

/-- `lambda v: v / 5.0 + 20.0` (battery voltage). -/
def convVoltage : Nat → PyValue := fun v => .float ((v : ℚ) / 5 + 20)

/-- `lambda v: v / 5.0` (battery current). -/
def convCurrent : Nat → PyValue := fun v => .float ((v : ℚ) / 5)

/-- `lambda v: v / 10.0` (cadence, speed). -/
def convTenth : Nat → PyValue := fun v => .float ((v : ℚ) / 10)

/-- `lambda v: v / 1000.0` (odometer). -/
def convOdo : Nat → PyValue := fun v => .float ((v : ℚ) / 1000)

/-- `lambda v: AssistLevel(v) if v in AssistLevel._value2member_map_ else v`. -/
def convAssist : Nat → PyValue := fun v =>
  match AssistLevel.ofNat? v with
  | some a => .assist a
  | none => .int v

/-- `lambda v: (v - 3000) / 60.0` (acceleration responsiveness). -/
def convAccel : Nat → PyValue := fun v => .float (((v : ℚ) - 3000) / 60)

/-- Scanner for `strReplace`: left-to-right, non-overlapping replacement of
`pat` by `rep`, with enough fuel to finish (structural recursion so the
kernel can evaluate it). -/
def replaceGo (pat rep : List Char) : Nat → List Char → List Char
  | _, [] => []
  | 0, s => s
  | fuel + 1, c :: cs =>
    if (c :: cs).take pat.length = pat then
      rep ++ replaceGo pat rep fuel ((c :: cs).drop pat.length)
    else c :: replaceGo pat rep fuel cs

/-- Python `str.replace(pat, rep)` for a non-empty pattern: replace every
(left-most, non-overlapping) occurrence. -/
def strReplace (s pat rep : String) : String :=
  if pat.data = [] then s
  else String.mk (replaceGo pat.data rep.data s.data.length s.data)

/-- The explicit `_reg(...)` calls of `protocol.py`, in source order:
battery (sender 0x00), motor (0x01), bike settings (0x02). -/
def explicitFieldDefs : List FieldDefinition :=
  [ ⟨0x00, 0x00, "battery_capacity_wh", "Wh", 2, convWh⟩,
    ⟨0x00, 0x01, "battery_remaining_wh", "Wh", 2, convWh⟩,
    ⟨0x00, 0x02, "battery_health", "%", 1, convId⟩,
    ⟨0x00, 0x03, "battery_temp", "°C", 1, convId⟩,
    ⟨0x00, 0x04, "battery_charge_cycles", "cycles", 2, convId⟩,
    ⟨0x00, 0x05, "battery_voltage", "V", 1, convVoltage⟩,
    ⟨0x00, 0x06, "battery_current", "A", 1, convCurrent⟩,
    ⟨0x00, 0x0C, "battery_charge_percent", "%", 1, convId⟩,
    ⟨0x01, 0x00, "rider_power", "W", 2, convId⟩,
    ⟨0x01, 0x01, "cadence", "RPM", 2, convTenth⟩,
    ⟨0x01, 0x02, "speed", "km/h", 2, convTenth⟩,
    ⟨0x01, 0x04, "odometer", "km", 4, convOdo⟩,
    ⟨0x01, 0x05, "assist_level", "", 2, convAssist⟩,
    ⟨0x01, 0x07, "motor_temp", "°C", 1, convId⟩,
    ⟨0x01, 0x0C, "motor_power", "W", 2, convId⟩,
    ⟨0x01, 0x10, "peak_assist", "", 3, convId⟩,
    ⟨0x01, 0x15, "shuttle", "", 1, convId⟩,
    ⟨0x02, 0x00, "wheel_circumference", "mm", 2, convId⟩,
    ⟨0x02, 0x03, "assist_lev1_pct", "%", 1, convId⟩,
    ⟨0x02, 0x04, "assist_lev2_pct", "%", 1, convId⟩,
    ⟨0x02, 0x05, "assist_lev3_pct", "%", 1, convId⟩,
    ⟨0x02, 0x06, "fake_channel", "", 1, convId⟩,
    ⟨0x02, 0x07, "acceleration", "%", 2, convAccel⟩ ]

/-- `list(BatteryChannel)` in declaration order. -/
def batteryChannelList : List Nat := [0x00, 0x01, 0x02, 0x03, 0x04, 0x05, 0x06, 0x0C]

/-- First-match association-list lookup on `(sender, channel)`. -/
def lookupFieldDef (defs : List FieldDefinition) (sender channel : Nat) :
    Option FieldDefinition :=
  defs.find? (fun fd => fd.sender = sender && fd.channel = channel)

/-- The full `_FIELD_DEFS` registry: the explicit registrations followed by
the secondary-battery duplication loop (sender 0x04, names with the
`battery_` prefix replaced by `battery2_`, same unit, size and conversion). -/
def FIELD_DEFS : List FieldDefinition :=
  explicitFieldDefs ++
    batteryChannelList.filterMap (fun ch =>
      (lookupFieldDef explicitFieldDefs 0x00 ch).map (fun orig =>
        { orig with
            sender := 0x04
            name := strReplace orig.name "battery_" "battery2_" }))

/-- `get_field_def(sender, channel)` — registry lookup, `none` if unknown. -/
def get_field_def (sender channel : Nat) : Option FieldDefinition :=
  lookupFieldDef FIELD_DEFS sender channel

/-- `ParsedMessage` named tuple from `protocol.py`. -/
structure ParsedMessage where
  sender : Nat
  channel : Nat
  raw_value : Nat
  converted_value : PyValue
  field_name : Option String
  unit : String
deriving DecidableEq, Repr

/-- `parse_message(data)`: raises (`Except.error`) iff the buffer is shorter
than 3 bytes; otherwise header = first two bytes, payload = the rest.
A registered field reads `data[2 : 2 + data_size]` (Python slices truncate)
and applies `convert`; an unknown field reads the whole payload and passes
the raw integer through. -/
def parse_message (data : List Byte) : Except String ParsedMessage :=
  match data with
  | s :: c :: p :: rest =>
    match get_field_def s.val c.val with
    | some fd =>
      let raw := leInt ((p :: rest).take fd.data_size)
      .ok { sender := s.val, channel := c.val, raw_value := raw,
            converted_value := fd.convert raw,
            field_name := some fd.name, unit := fd.unit }
    | none =>
      let raw := leInt (p :: rest)
      .ok { sender := s.val, channel := c.val, raw_value := raw,
            converted_value := .int raw,
            field_name := none, unit := "" }
  | _ => .error "Message too short"

/-- `build_request(sender, channel)` — the 2-byte query buffer. -/
def build_request (sender channel : Byte) : List Byte :=
  [sender, channel]

/-!
### Models (`models.py`)

Sub-state fields hold `Option PyValue`: `none` is Python `None`
("never yet observed"); routing stores whatever `converted_value` arrived.
-/

/-- `BatteryState` dataclass (one battery pack; channel map per source). -/
structure BatteryState where
  capacity_wh : Option PyValue := none
  remaining_wh : Option PyValue := none
  health_pct : Option PyValue := none
  temp_c : Option PyValue := none
  charge_cycles : Option PyValue := none
  voltage_v : Option PyValue := none
  current_a : Option PyValue := none
  charge_pct : Option PyValue := none
deriving DecidableEq, Repr

/-- `BatteryState.update`: `_CHANNEL_MAP` lookup then `setattr`; the `Bool`
is the "field was known" result. -/
def BatteryState.update (b : BatteryState) (channel : Nat) (v : PyValue) :
    BatteryState × Bool :=
  if channel = 0x00 then ({ b with capacity_wh := some v }, true)
  else if channel = 0x01 then ({ b with remaining_wh := some v }, true)
  else if channel = 0x02 then ({ b with health_pct := some v }, true)
  else if channel = 0x03 then ({ b with temp_c := some v }, true)
  else if channel = 0x04 then ({ b with charge_cycles := some v }, true)
  else if channel = 0x05 then ({ b with voltage_v := some v }, true)
  else if channel = 0x06 then ({ b with current_a := some v }, true)
  else if channel = 0x0C then ({ b with charge_pct := some v }, true)
  else (b, false)

/-- `MotorState` dataclass. -/
structure MotorState where
  rider_power_w : Option PyValue := none
  cadence_rpm : Option PyValue := none
  speed_kmh : Option PyValue := none
  odometer_km : Option PyValue := none
  assist_level : Option PyValue := none
  motor_temp_c : Option PyValue := none
  motor_power_w : Option PyValue := none
  peak_assist : Option PyValue := none
  shuttle : Option PyValue := none
deriving DecidableEq, Repr

/-- `MotorState.update`. -/
def MotorState.update (m : MotorState) (channel : Nat) (v : PyValue) :
    MotorState × Bool :=
  if channel = 0x00 then ({ m with rider_power_w := some v }, true)
  else if channel = 0x01 then ({ m with cadence_rpm := some v }, true)
  else if channel = 0x02 then ({ m with speed_kmh := some v }, true)
  else if channel = 0x04 then ({ m with odometer_km := some v }, true)
  else if channel = 0x05 then ({ m with assist_level := some v }, true)
  else if channel = 0x07 then ({ m with motor_temp_c := some v }, true)
  else if channel = 0x0C then ({ m with motor_power_w := some v }, true)
  else if channel = 0x10 then ({ m with peak_assist := some v }, true)
  else if channel = 0x15 then ({ m with shuttle := some v }, true)
  else (m, false)

/-- `BikeSettings` dataclass. -/
structure BikeSettings where
  wheel_circumference_mm : Option PyValue := none
  assist_lev1_pct : Option PyValue := none
  assist_lev2_pct : Option PyValue := none
  assist_lev3_pct : Option PyValue := none
  fake_channel : Option PyValue := none
  acceleration_pct : Option PyValue := none
deriving DecidableEq, Repr

/-- `BikeSettings.update`. -/
def BikeSettings.update (s : BikeSettings) (channel : Nat) (v : PyValue) :
    BikeSettings × Bool :=
  if channel = 0x00 then ({ s with wheel_circumference_mm := some v }, true)
  else if channel = 0x03 then ({ s with assist_lev1_pct := some v }, true)
  else if channel = 0x04 then ({ s with assist_lev2_pct := some v }, true)
  else if channel = 0x05 then ({ s with assist_lev3_pct := some v }, true)
  else if channel = 0x06 then ({ s with fake_channel := some v }, true)
  else if channel = 0x07 then ({ s with acceleration_pct := some v }, true)
  else (s, false)

/-- `TelemetrySnapshot` dataclass (`last_updated` not modelled). -/
structure TelemetrySnapshot where
  battery : BatteryState := {}
  battery2 : BatteryState := {}
  motor : MotorState := {}
  settings : BikeSettings := {}
  message_count : Nat := 0
  unknown_messages : List ParsedMessage := []
deriving DecidableEq, Repr

/-- `TelemetrySnapshot.update_from_message`: bump `message_count`, route by
sender (`BATTERY=0x00`, `BATTERY_2=0x04`, `MOTOR=0x01`, `BIKE_SETTINGS=0x02`);
a message rejected by the sub-state's channel map, or with any other sender,
is appended to `unknown_messages`. -/
def TelemetrySnapshot.update_from_message (s : TelemetrySnapshot)
    (msg : ParsedMessage) : TelemetrySnapshot :=
  if msg.sender = 0x00 then
    if (s.battery.update msg.channel msg.converted_value).2 then
      { s with message_count := s.message_count + 1,
               battery := (s.battery.update msg.channel msg.converted_value).1 }
    else
      { s with message_count := s.message_count + 1,
               unknown_messages := s.unknown_messages ++ [msg] }
  else if msg.sender = 0x04 then
    if (s.battery2.update msg.channel msg.converted_value).2 then
      { s with message_count := s.message_count + 1,
               battery2 := (s.battery2.update msg.channel msg.converted_value).1 }
    else
      { s with message_count := s.message_count + 1,
               unknown_messages := s.unknown_messages ++ [msg] }
  else if msg.sender = 0x01 then
    if (s.motor.update msg.channel msg.converted_value).2 then
      { s with message_count := s.message_count + 1,
               motor := (s.motor.update msg.channel msg.converted_value).1 }
    else
      { s with message_count := s.message_count + 1,
               unknown_messages := s.unknown_messages ++ [msg] }
  else if msg.sender = 0x02 then
    if (s.settings.update msg.channel msg.converted_value).2 then
      { s with message_count := s.message_count + 1,
               settings := (s.settings.update msg.channel msg.converted_value).1 }
    else
      { s with message_count := s.message_count + 1,
               unknown_messages := s.unknown_messages ++ [msg] }
  else
    { s with message_count := s.message_count + 1,
             unknown_messages := s.unknown_messages ++ [msg] }

/-- Apply a sequence of decoded messages to a snapshot, oldest first. -/
def applyAll (s : TelemetrySnapshot) (ms : List ParsedMessage) : TelemetrySnapshot :=
  ms.foldl TelemetrySnapshot.update_from_message s

/-!
### Export (`as_dict`)

A Python dict is modelled as an insertion-ordered association list; values
are `JVal` (plain value, enum-name string, or nested dict).
-/

/-- A value stored in an exported dict. -/
inductive JVal
  | int : ℤ → JVal
  | num : ℚ → JVal
  | str : String → JVal
  | assist : AssistLevel → JVal
  | obj : List (String × JVal) → JVal
deriving Repr

/-- Embed a runtime `PyValue` into an exported dict value. -/
def pyToJ : PyValue → JVal
  | .int n => .int n
  | .float q => .num q
  | .assist a => .assist a

/-- `{k: v for k, v in entries if v is not None}` — keep set entries only,
in insertion order. -/
def dictOf (l : List (String × Option JVal)) : List (String × JVal) :=
  l.filterMap (fun p => p.2.map (fun v => (p.1, v)))

/-- `BatteryState.as_dict`. -/
def BatteryState.as_dict (b : BatteryState) : List (String × JVal) :=
  dictOf
    [ ("capacity_wh", b.capacity_wh.map pyToJ),
      ("remaining_wh", b.remaining_wh.map pyToJ),
      ("health_pct", b.health_pct.map pyToJ),
      ("temp_c", b.temp_c.map pyToJ),
      ("charge_cycles", b.charge_cycles.map pyToJ),
      ("voltage_v", b.voltage_v.map pyToJ),
      ("current_a", b.current_a.map pyToJ),
      ("charge_pct", b.charge_pct.map pyToJ) ]

/-- The `assist` local of `MotorState.as_dict`: an `AssistLevel` member is
replaced by its `.name` string before export. -/
def assistExport : PyValue → JVal
  | .assist a => .str a.enumName
  | v => pyToJ v

/-- `MotorState.as_dict`. -/
def MotorState.as_dict (m : MotorState) : List (String × JVal) :=
  dictOf
    [ ("rider_power_w", m.rider_power_w.map pyToJ),
      ("cadence_rpm", m.cadence_rpm.map pyToJ),
      ("speed_kmh", m.speed_kmh.map pyToJ),
      ("odometer_km", m.odometer_km.map pyToJ),
      ("assist_level", m.assist_level.map assistExport),
      ("motor_temp_c", m.motor_temp_c.map pyToJ),
      ("motor_power_w", m.motor_power_w.map pyToJ),
      ("peak_assist", m.peak_assist.map pyToJ),
      ("shuttle", m.shuttle.map pyToJ) ]

/-- `BikeSettings.as_dict`. -/
def BikeSettings.as_dict (s : BikeSettings) : List (String × JVal) :=
  dictOf
    [ ("wheel_circumference_mm", s.wheel_circumference_mm.map pyToJ),
      ("assist_lev1_pct", s.assist_lev1_pct.map pyToJ),
      ("assist_lev2_pct", s.assist_lev2_pct.map pyToJ),
      ("assist_lev3_pct", s.assist_lev3_pct.map pyToJ),
      ("fake_channel", s.fake_channel.map pyToJ),
      ("acceleration_pct", s.acceleration_pct.map pyToJ) ]

/-- `TelemetrySnapshot.as_dict`: `battery` and `motor` always present;
`battery2` and `settings` only when non-empty (Python dict truthiness);
`message_count` always last. -/
def TelemetrySnapshot.as_dict (s : TelemetrySnapshot) : List (String × JVal) :=
  [("battery", JVal.obj s.battery.as_dict)]
    ++ (if s.battery2.as_dict.isEmpty then [] else
          [("battery2", JVal.obj s.battery2.as_dict)])
    ++ [("motor", JVal.obj s.motor.as_dict)]
    ++ (if s.settings.as_dict.isEmpty then [] else
          [("settings", JVal.obj s.settings.as_dict)])
    ++ [("message_count", JVal.int s.message_count)]

/-!
### Stream session (`telemetry.py`, `TelemetryMonitor`)

Only the synchronous notification handler and its delivery queue are
modelled (the async subscription plumbing is transport glue).
`asyncio.Queue()` is constructed with its default `maxsize=0`, which in
Python means *unbounded*: `put_nowait` raises `QueueFull` only when
`0 < maxsize <= qsize()`.
-/

/-- State of a `TelemetryMonitor`: the live snapshot and the delivery queue
with its configured `maxsize` (`0` = unbounded, the `asyncio.Queue` default). -/
structure MonitorState where
  snapshot : TelemetrySnapshot
  queue : List ParsedMessage
  maxsize : Nat
deriving Repr

/-- Fresh monitor as built by `TelemetryMonitor.__init__`:
`TelemetrySnapshot()` and `asyncio.Queue()` (default `maxsize=0`). -/
def MonitorState.init : MonitorState :=
  { snapshot := {}, queue := [], maxsize := 0 }

/-- `asyncio.Queue.put_nowait` semantics: fails (returns `none`) iff
`maxsize` is positive and the queue already holds `maxsize` items. -/
def queuePutNowait (q : List ParsedMessage) (maxsize : Nat)
    (m : ParsedMessage) : Option (List ParsedMessage) :=
  if 0 < maxsize ∧ maxsize ≤ q.length then none else some (q ++ [m])

/-- `TelemetryMonitor._notification_handler`: parse; on failure log and
return; on success update the snapshot, then try `put_nowait`, dropping the
message from the queue (only) on `QueueFull`. -/
def notification_handler (st : MonitorState) (data : List Byte) : MonitorState :=
  match parse_message data with
  | .error _ => st
  | .ok msg =>
    let st' := { st with snapshot := st.snapshot.update_from_message msg }
    match queuePutNowait st'.queue st'.maxsize msg with
    | some q => { st' with queue := q }
    | none => st'

/-!
### Field identities for the aggregation proofs

One abstract identifier per sub-state field, with the `(sender, channel)`
key that routes to it (taken from the `_CHANNEL_MAP`s of `models.py`) and
the key its `as_dict` exports it under.
-/

/-- One identifier per routable sub-state field. -/
inductive FieldId
  | bCap | bRemain | bHealth | bTemp | bCycles | bVolt | bCurr | bPct
  | b2Cap | b2Remain | b2Health | b2Temp | b2Cycles | b2Volt | b2Curr | b2Pct
  | mRider | mCadence | mSpeed | mOdo | mAssist | mTemp | mPower | mPeak | mShuttle
  | sWheel | sLev1 | sLev2 | sLev3 | sFake | sAccel
deriving DecidableEq, Repr

/-- The sub-state a field lives in. -/
inductive SubStateId
  | battery | battery2 | motor | settings
deriving DecidableEq, Repr

/-- Which sub-state holds a given field. -/
def FieldId.subState : FieldId → SubStateId
  | .bCap | .bRemain | .bHealth | .bTemp | .bCycles | .bVolt | .bCurr | .bPct => .battery
  | .b2Cap | .b2Remain | .b2Health | .b2Temp | .b2Cycles | .b2Volt | .b2Curr | .b2Pct => .battery2
  | .mRider | .mCadence | .mSpeed | .mOdo | .mAssist | .mTemp | .mPower | .mPeak | .mShuttle => .motor
  | .sWheel | .sLev1 | .sLev2 | .sLev3 | .sFake | .sAccel => .settings

/-- The `(sender, channel)` wire key that routes to a given field. -/
def FieldId.routeKey : FieldId → Nat × Nat
  | .bCap => (0x00, 0x00)
  | .bRemain => (0x00, 0x01)
  | .bHealth => (0x00, 0x02)
  | .bTemp => (0x00, 0x03)
  | .bCycles => (0x00, 0x04)
  | .bVolt => (0x00, 0x05)
  | .bCurr => (0x00, 0x06)
  | .bPct => (0x00, 0x0C)
  | .b2Cap => (0x04, 0x00)
  | .b2Remain => (0x04, 0x01)
  | .b2Health => (0x04, 0x02)
  | .b2Temp => (0x04, 0x03)
  | .b2Cycles => (0x04, 0x04)
  | .b2Volt => (0x04, 0x05)
  | .b2Curr => (0x04, 0x06)
  | .b2Pct => (0x04, 0x0C)
  | .mRider => (0x01, 0x00)
  | .mCadence => (0x01, 0x01)
  | .mSpeed => (0x01, 0x02)
  | .mOdo => (0x01, 0x04)
  | .mAssist => (0x01, 0x05)
  | .mTemp => (0x01, 0x07)
  | .mPower => (0x01, 0x0C)
  | .mPeak => (0x01, 0x10)
  | .mShuttle => (0x01, 0x15)
  | .sWheel => (0x02, 0x00)
  | .sLev1 => (0x02, 0x03)
  | .sLev2 => (0x02, 0x04)
  | .sLev3 => (0x02, 0x05)
  | .sFake => (0x02, 0x06)
  | .sAccel => (0x02, 0x07)

/-- The dict key a field is exported under by its sub-state's `as_dict`. -/
def FieldId.exportKey : FieldId → String
  | .bCap | .b2Cap => "capacity_wh"
  | .bRemain | .b2Remain => "remaining_wh"
  | .bHealth | .b2Health => "health_pct"
  | .bTemp | .b2Temp => "temp_c"
  | .bCycles | .b2Cycles => "charge_cycles"
  | .bVolt | .b2Volt => "voltage_v"
  | .bCurr | .b2Curr => "current_a"
  | .bPct | .b2Pct => "charge_pct"
  | .mRider => "rider_power_w"
  | .mCadence => "cadence_rpm"
  | .mSpeed => "speed_kmh"
  | .mOdo => "odometer_km"
  | .mAssist => "assist_level"
  | .mTemp => "motor_temp_c"
  | .mPower => "motor_power_w"
  | .mPeak => "peak_assist"
  | .mShuttle => "shuttle"
  | .sWheel => "wheel_circumference_mm"
  | .sLev1 => "assist_lev1_pct"
  | .sLev2 => "assist_lev2_pct"
  | .sLev3 => "assist_lev3_pct"
  | .sFake => "fake_channel"
  | .sAccel => "acceleration_pct"

/-- Read one abstract field out of a snapshot. -/
def TelemetrySnapshot.getField (s : TelemetrySnapshot) : FieldId → Option PyValue
  | .bCap => s.battery.capacity_wh
  | .bRemain => s.battery.remaining_wh
  | .bHealth => s.battery.health_pct
  | .bTemp => s.battery.temp_c
  | .bCycles => s.battery.charge_cycles
  | .bVolt => s.battery.voltage_v
  | .bCurr => s.battery.current_a
  | .bPct => s.battery.charge_pct
  | .b2Cap => s.battery2.capacity_wh
  | .b2Remain => s.battery2.remaining_wh
  | .b2Health => s.battery2.health_pct
  | .b2Temp => s.battery2.temp_c
  | .b2Cycles => s.battery2.charge_cycles
  | .b2Volt => s.battery2.voltage_v
  | .b2Curr => s.battery2.current_a
  | .b2Pct => s.battery2.charge_pct
  | .mRider => s.motor.rider_power_w
  | .mCadence => s.motor.cadence_rpm
  | .mSpeed => s.motor.speed_kmh
  | .mOdo => s.motor.odometer_km
  | .mAssist => s.motor.assist_level
  | .mTemp => s.motor.motor_temp_c
  | .mPower => s.motor.motor_power_w
  | .mPeak => s.motor.peak_assist
  | .mShuttle => s.motor.shuttle
  | .sWheel => s.settings.wheel_circumference_mm
  | .sLev1 => s.settings.assist_lev1_pct
  | .sLev2 => s.settings.assist_lev2_pct
  | .sLev3 => s.settings.assist_lev3_pct
  | .sFake => s.settings.fake_channel
  | .sAccel => s.settings.acceleration_pct

/-- The exported dict of the sub-state a field belongs to. -/
def sectionDict (s : TelemetrySnapshot) : SubStateId → List (String × JVal)
  | .battery => s.battery.as_dict
  | .battery2 => s.battery2.as_dict
  | .motor => s.motor.as_dict
  | .settings => s.settings.as_dict

/-- Channels accepted by `BatteryState._CHANNEL_MAP`. -/
def batteryAccepts (ch : Nat) : Bool :=
  ch = 0x00 || ch = 0x01 || ch = 0x02 || ch = 0x03 || ch = 0x04 || ch = 0x05
    || ch = 0x06 || ch = 0x0C

/-- Channels accepted by `MotorState._CHANNEL_MAP`. -/
def motorAccepts (ch : Nat) : Bool :=
  ch = 0x00 || ch = 0x01 || ch = 0x02 || ch = 0x04 || ch = 0x05 || ch = 0x07
    || ch = 0x0C || ch = 0x10 || ch = 0x15

/-- Channels accepted by `BikeSettings._CHANNEL_MAP`. -/
def settingsAccepts (ch : Nat) : Bool :=
  ch = 0x00 || ch = 0x03 || ch = 0x04 || ch = 0x05 || ch = 0x06 || ch = 0x07

/-- A message is accepted (routed into a sub-state field, not `unknown_messages`)
when its sender is a modelled sub-state and that sub-state's channel map
knows the channel. -/
def accepted (m : ParsedMessage) : Bool :=
  if m.sender = 0x00 then batteryAccepts m.channel
  else if m.sender = 0x04 then batteryAccepts m.channel
  else if m.sender = 0x01 then motorAccepts m.channel
  else if m.sender = 0x02 then settingsAccepts m.channel
  else false

/-!
### Routing lemmas

`update` on a sub-state: which field changes, and the accept `Bool`.
-/

theorem battery_update_snd (b : BatteryState) (ch : Nat) (v : PyValue) :
    (BatteryState.update b ch v).2 = batteryAccepts ch := by
  unfold BatteryState.update batteryAccepts
  split_ifs <;> simp_all

theorem motor_update_snd (m : MotorState) (ch : Nat) (v : PyValue) :
    (MotorState.update m ch v).2 = motorAccepts ch := by
  unfold MotorState.update motorAccepts
  split_ifs <;> simp_all

theorem settings_update_snd (s : BikeSettings) (ch : Nat) (v : PyValue) :
    (BikeSettings.update s ch v).2 = settingsAccepts ch := by
  unfold BikeSettings.update settingsAccepts
  split_ifs <;> simp_all

theorem battery_update_fst_of_reject (b : BatteryState) (ch : Nat) (v : PyValue)
    (h : (BatteryState.update b ch v).2 = false) : (BatteryState.update b ch v).1 = b := by
  unfold BatteryState.update at *
  split_ifs at * <;> simp_all

theorem motor_update_fst_of_reject (m : MotorState) (ch : Nat) (v : PyValue)
    (h : (MotorState.update m ch v).2 = false) : (MotorState.update m ch v).1 = m := by
  unfold MotorState.update at *
  split_ifs at * <;> simp_all

theorem settings_update_fst_of_reject (s : BikeSettings) (ch : Nat) (v : PyValue)
    (h : (BikeSettings.update s ch v).2 = false) : (BikeSettings.update s ch v).1 = s := by
  unfold BikeSettings.update at *
  split_ifs at * <;> simp_all

theorem update_battery (s : TelemetrySnapshot) (m : ParsedMessage) :
    (s.update_from_message m).battery =
      if m.sender = 0x00 then (s.battery.update m.channel m.converted_value).1
      else s.battery := by
  unfold TelemetrySnapshot.update_from_message
  split_ifs <;> simp_all [battery_update_fst_of_reject]

theorem update_battery2 (s : TelemetrySnapshot) (m : ParsedMessage) :
    (s.update_from_message m).battery2 =
      if m.sender = 0x04 then (s.battery2.update m.channel m.converted_value).1
      else s.battery2 := by
  unfold TelemetrySnapshot.update_from_message
  split_ifs <;> simp_all [battery_update_fst_of_reject]

theorem update_motor (s : TelemetrySnapshot) (m : ParsedMessage) :
    (s.update_from_message m).motor =
      if m.sender = 0x01 then (s.motor.update m.channel m.converted_value).1
      else s.motor := by
  unfold TelemetrySnapshot.update_from_message
  split_ifs <;> simp_all [motor_update_fst_of_reject]

theorem update_settings (s : TelemetrySnapshot) (m : ParsedMessage) :
    (s.update_from_message m).settings =
      if m.sender = 0x02 then (s.settings.update m.channel m.converted_value).1
      else s.settings := by
  unfold TelemetrySnapshot.update_from_message
  split_ifs <;> simp_all [settings_update_fst_of_reject]

theorem update_message_count (s : TelemetrySnapshot) (m : ParsedMessage) :
    (s.update_from_message m).message_count = s.message_count + 1 := by
  unfold TelemetrySnapshot.update_from_message
  split_ifs <;> rfl

theorem update_unknown_messages (s : TelemetrySnapshot) (m : ParsedMessage) :
    (s.update_from_message m).unknown_messages =
      s.unknown_messages ++ (if accepted m then [] else [m]) := by
  unfold TelemetrySnapshot.update_from_message accepted
  simp only [battery_update_snd, motor_update_snd, settings_update_snd]
  split_ifs <;> simp_all

theorem battery_update_fst_capacity_wh (x : BatteryState) (ch : Nat) (v : PyValue) :
    (BatteryState.update x ch v).1.capacity_wh = if ch = 0x00 then some v else x.capacity_wh := by
  unfold BatteryState.update
  split_ifs <;> simp_all

theorem battery_update_fst_remaining_wh (x : BatteryState) (ch : Nat) (v : PyValue) :
    (BatteryState.update x ch v).1.remaining_wh = if ch = 0x01 then some v else x.remaining_wh := by
  unfold BatteryState.update
  split_ifs <;> simp_all

theorem battery_update_fst_health_pct (x : BatteryState) (ch : Nat) (v : PyValue) :
    (BatteryState.update x ch v).1.health_pct = if ch = 0x02 then some v else x.health_pct := by
  unfold BatteryState.update
  split_ifs <;> simp_all

theorem battery_update_fst_temp_c (x : BatteryState) (ch : Nat) (v : PyValue) :
    (BatteryState.update x ch v).1.temp_c = if ch = 0x03 then some v else x.temp_c := by
  unfold BatteryState.update
  split_ifs <;> simp_all

theorem battery_update_fst_charge_cycles (x : BatteryState) (ch : Nat) (v : PyValue) :
    (BatteryState.update x ch v).1.charge_cycles = if ch = 0x04 then some v else x.charge_cycles := by
  unfold BatteryState.update
  split_ifs <;> simp_all

theorem battery_update_fst_voltage_v (x : BatteryState) (ch : Nat) (v : PyValue) :
    (BatteryState.update x ch v).1.voltage_v = if ch = 0x05 then some v else x.voltage_v := by
  unfold BatteryState.update
  split_ifs <;> simp_all

theorem battery_update_fst_current_a (x : BatteryState) (ch : Nat) (v : PyValue) :
    (BatteryState.update x ch v).1.current_a = if ch = 0x06 then some v else x.current_a := by
  unfold BatteryState.update
  split_ifs <;> simp_all

theorem battery_update_fst_charge_pct (x : BatteryState) (ch : Nat) (v : PyValue) :
    (BatteryState.update x ch v).1.charge_pct = if ch = 0x0C then some v else x.charge_pct := by
  unfold BatteryState.update
  split_ifs <;> simp_all

theorem motor_update_fst_rider_power_w (x : MotorState) (ch : Nat) (v : PyValue) :
    (MotorState.update x ch v).1.rider_power_w = if ch = 0x00 then some v else x.rider_power_w := by
  unfold MotorState.update
  split_ifs <;> simp_all

theorem motor_update_fst_cadence_rpm (x : MotorState) (ch : Nat) (v : PyValue) :
    (MotorState.update x ch v).1.cadence_rpm = if ch = 0x01 then some v else x.cadence_rpm := by
  unfold MotorState.update
  split_ifs <;> simp_all

theorem motor_update_fst_speed_kmh (x : MotorState) (ch : Nat) (v : PyValue) :
    (MotorState.update x ch v).1.speed_kmh = if ch = 0x02 then some v else x.speed_kmh := by
  unfold MotorState.update
  split_ifs <;> simp_all

theorem motor_update_fst_odometer_km (x : MotorState) (ch : Nat) (v : PyValue) :
    (MotorState.update x ch v).1.odometer_km = if ch = 0x04 then some v else x.odometer_km := by
  unfold MotorState.update
  split_ifs <;> simp_all

theorem motor_update_fst_assist_level (x : MotorState) (ch : Nat) (v : PyValue) :
    (MotorState.update x ch v).1.assist_level = if ch = 0x05 then some v else x.assist_level := by
  unfold MotorState.update
  split_ifs <;> simp_all

theorem motor_update_fst_motor_temp_c (x : MotorState) (ch : Nat) (v : PyValue) :
    (MotorState.update x ch v).1.motor_temp_c = if ch = 0x07 then some v else x.motor_temp_c := by
  unfold MotorState.update
  split_ifs <;> simp_all

theorem motor_update_fst_motor_power_w (x : MotorState) (ch : Nat) (v : PyValue) :
    (MotorState.update x ch v).1.motor_power_w = if ch = 0x0C then some v else x.motor_power_w := by
  unfold MotorState.update
  split_ifs <;> simp_all

theorem motor_update_fst_peak_assist (x : MotorState) (ch : Nat) (v : PyValue) :
    (MotorState.update x ch v).1.peak_assist = if ch = 0x10 then some v else x.peak_assist := by
  unfold MotorState.update
  split_ifs <;> simp_all

theorem motor_update_fst_shuttle (x : MotorState) (ch : Nat) (v : PyValue) :
    (MotorState.update x ch v).1.shuttle = if ch = 0x15 then some v else x.shuttle := by
  unfold MotorState.update
  split_ifs <;> simp_all

theorem settings_update_fst_wheel_circumference_mm (x : BikeSettings) (ch : Nat) (v : PyValue) :
    (BikeSettings.update x ch v).1.wheel_circumference_mm = if ch = 0x00 then some v else x.wheel_circumference_mm := by
  unfold BikeSettings.update
  split_ifs <;> simp_all

theorem settings_update_fst_assist_lev1_pct (x : BikeSettings) (ch : Nat) (v : PyValue) :
    (BikeSettings.update x ch v).1.assist_lev1_pct = if ch = 0x03 then some v else x.assist_lev1_pct := by
  unfold BikeSettings.update
  split_ifs <;> simp_all

theorem settings_update_fst_assist_lev2_pct (x : BikeSettings) (ch : Nat) (v : PyValue) :
    (BikeSettings.update x ch v).1.assist_lev2_pct = if ch = 0x04 then some v else x.assist_lev2_pct := by
  unfold BikeSettings.update
  split_ifs <;> simp_all

theorem settings_update_fst_assist_lev3_pct (x : BikeSettings) (ch : Nat) (v : PyValue) :
    (BikeSettings.update x ch v).1.assist_lev3_pct = if ch = 0x05 then some v else x.assist_lev3_pct := by
  unfold BikeSettings.update
  split_ifs <;> simp_all

theorem settings_update_fst_fake_channel (x : BikeSettings) (ch : Nat) (v : PyValue) :
    (BikeSettings.update x ch v).1.fake_channel = if ch = 0x06 then some v else x.fake_channel := by
  unfold BikeSettings.update
  split_ifs <;> simp_all

theorem settings_update_fst_acceleration_pct (x : BikeSettings) (ch : Nat) (v : PyValue) :
    (BikeSettings.update x ch v).1.acceleration_pct = if ch = 0x07 then some v else x.acceleration_pct := by
  unfold BikeSettings.update
  split_ifs <;> simp_all

set_option maxHeartbeats 1600000 in
theorem getField_update (s : TelemetrySnapshot) (m : ParsedMessage) (f : FieldId) :
    (s.update_from_message m).getField f =
      if (m.sender, m.channel) = f.routeKey then some m.converted_value
      else s.getField f := by
  cases f <;>
    simp only [TelemetrySnapshot.getField, FieldId.routeKey, update_battery,
      update_battery2, update_motor, update_settings,
      apply_ite BatteryState.capacity_wh, apply_ite BatteryState.remaining_wh,
      apply_ite BatteryState.health_pct, apply_ite BatteryState.temp_c,
      apply_ite BatteryState.charge_cycles, apply_ite BatteryState.voltage_v,
      apply_ite BatteryState.current_a, apply_ite BatteryState.charge_pct,
      apply_ite MotorState.rider_power_w, apply_ite MotorState.cadence_rpm,
      apply_ite MotorState.speed_kmh, apply_ite MotorState.odometer_km,
      apply_ite MotorState.assist_level, apply_ite MotorState.motor_temp_c,
      apply_ite MotorState.motor_power_w, apply_ite MotorState.peak_assist,
      apply_ite MotorState.shuttle,
      apply_ite BikeSettings.wheel_circumference_mm, apply_ite BikeSettings.assist_lev1_pct,
      apply_ite BikeSettings.assist_lev2_pct, apply_ite BikeSettings.assist_lev3_pct,
      apply_ite BikeSettings.fake_channel, apply_ite BikeSettings.acceleration_pct,
      battery_update_fst_capacity_wh, battery_update_fst_remaining_wh,
      battery_update_fst_health_pct, battery_update_fst_temp_c,
      battery_update_fst_charge_cycles, battery_update_fst_voltage_v,
      battery_update_fst_current_a, battery_update_fst_charge_pct,
      motor_update_fst_rider_power_w, motor_update_fst_cadence_rpm,
      motor_update_fst_speed_kmh, motor_update_fst_odometer_km,
      motor_update_fst_assist_level, motor_update_fst_motor_temp_c,
      motor_update_fst_motor_power_w, motor_update_fst_peak_assist,
      motor_update_fst_shuttle,
      settings_update_fst_wheel_circumference_mm, settings_update_fst_assist_lev1_pct,
      settings_update_fst_assist_lev2_pct, settings_update_fst_assist_lev3_pct,
      settings_update_fst_fake_channel, settings_update_fst_acceleration_pct,
      Prod.mk.injEq] <;>
    split_ifs <;> simp_all

theorem applyAll_cons (s : TelemetrySnapshot) (m : ParsedMessage)
    (ms : List ParsedMessage) :
    applyAll s (m :: ms) = applyAll (s.update_from_message m) ms := rfl

/-- Count and unrouted-list bookkeeping of a whole message sequence. -/
theorem applyAll_count_unknown (ms : List ParsedMessage) (s : TelemetrySnapshot) :
    (applyAll s ms).message_count = s.message_count + ms.length ∧
    (applyAll s ms).unknown_messages =
      s.unknown_messages ++ ms.filter (fun m => !accepted m) := by
  induction ms generalizing s with
  | nil => simp [applyAll]
  | cons m ms ih =>
    rw [applyAll_cons]
    rcases ih (s.update_from_message m) with ⟨h1, h2⟩
    constructor
    · rw [h1, update_message_count]
      simp
      omega
    · rw [h2, update_unknown_messages, List.filter_cons]
      by_cases h : accepted m <;> simp [h]

/-- The empty snapshot has every routable field unset. -/
theorem getField_init (f : FieldId) :
    TelemetrySnapshot.getField {} f = none := by
  cases f <;> rfl

/-- A field of the snapshot obtained from a message sequence is set iff some
message of the sequence carried that field's `(sender, channel)` key. -/
theorem getField_applyAll (ms : List ParsedMessage) (s : TelemetrySnapshot)
    (f : FieldId) :
    ((applyAll s ms).getField f).isSome ↔
      (∃ m ∈ ms, (m.sender, m.channel) = f.routeKey) ∨ (s.getField f).isSome := by
  induction ms generalizing s with
  | nil => simp [applyAll]
  | cons m ms ih =>
    rw [applyAll_cons]
    constructor
    · intro hs
      rcases (ih _).mp hs with hex | hupd
      · obtain ⟨x, hx, hk⟩ := hex
        exact Or.inl ⟨x, List.mem_cons_of_mem _ hx, hk⟩
      · rw [getField_update] at hupd
        by_cases h : (m.sender, m.channel) = f.routeKey
        · exact Or.inl ⟨m, List.mem_cons_self _ _, h⟩
        · rw [if_neg h] at hupd
          exact Or.inr hupd
    · intro hs
      apply (ih _).mpr
      rcases hs with ⟨x, hx, hk⟩ | hs
      · rcases List.mem_cons.mp hx with rfl | hx
        · right
          rw [getField_update, if_pos hk]
          rfl
        · exact Or.inl ⟨x, hx, hk⟩
      · right
        rw [getField_update]
        split_ifs <;> simp [hs]

/-- Key membership in a filtered dict: the key is present iff its entry was
set. -/
theorem mem_keys_dictOf (l : List (String × Option JVal)) (k : String) :
    k ∈ (dictOf l).map Prod.fst ↔ ∃ v, (k, some v) ∈ l := by
  constructor
  · intro h
    rcases List.mem_map.mp h with ⟨p, hp, hk⟩
    rcases List.mem_filterMap.mp hp with ⟨q, hq, hfq⟩
    rcases q with ⟨a, ob⟩
    cases ob with
    | none => simp at hfq
    | some v =>
      simp only [Option.map_some'] at hfq
      rcases p with ⟨k2, v2⟩
      injection hfq with hfq
      injection hfq with ha hv
      subst ha
      subst hv
      subst hk
      exact ⟨v, hq⟩
  · rintro ⟨v, hv⟩
    exact List.mem_map.mpr ⟨(k, v), List.mem_filterMap.mpr ⟨(k, some v), hv, rfl⟩, rfl⟩

/-!
### Export lemmas
-/

/-- Pair membership in a filtered dict. -/
theorem pair_mem_dictOf (l : List (String × Option JVal)) (k : String) (x : JVal) :
    (k, x) ∈ dictOf l ↔ (k, some x) ∈ l := by
  constructor
  · intro h
    rcases List.mem_filterMap.mp h with ⟨⟨a, ob⟩, hq, hfq⟩
    cases ob with
    | none => simp at hfq
    | some v =>
      simp only [Option.map_some'] at hfq
      injection hfq with hfq
      injection hfq with ha hv
      subst ha
      subst hv
      exact hq
  · intro h
    exact List.mem_filterMap.mpr ⟨(k, some x), h, rfl⟩

theorem exists_some_eq_map (o : Option PyValue) (g : PyValue → JVal) :
    (∃ v, some v = o.map g) ↔ o.isSome := by
  cases o <;> simp

theorem exists_map_eq_some (o : Option PyValue) (g : PyValue → JVal) :
    (∃ v, o.map g = some v) ↔ o.isSome := by
  cases o <;> simp

set_option maxRecDepth 8000 in
set_option maxHeartbeats 800000 in
/-- A field's export key appears in its sub-state's exported dict iff the
field is set. -/
theorem mem_section_keys_iff (s : TelemetrySnapshot) (f : FieldId) :
    f.exportKey ∈ (sectionDict s f.subState).map Prod.fst ↔
      (s.getField f).isSome := by
  cases f <;>
    simp [sectionDict, FieldId.subState, FieldId.exportKey, TelemetrySnapshot.getField,
      BatteryState.as_dict, MotorState.as_dict, BikeSettings.as_dict,
      pair_mem_dictOf, exists_some_eq_map, exists_map_eq_some]

/-- A battery export dict is empty iff every field is unset. -/
theorem battery_as_dict_nil_iff (b : BatteryState) :
    b.as_dict = [] ↔
      b.capacity_wh = none ∧ b.remaining_wh = none ∧ b.health_pct = none ∧
      b.temp_c = none ∧ b.charge_cycles = none ∧ b.voltage_v = none ∧
      b.current_a = none ∧ b.charge_pct = none := by
  simp [BatteryState.as_dict, dictOf, List.filterMap_eq_nil, Option.map_eq_none']

/-- Same statement read through `getField` (definitional). -/
theorem battery2_as_dict_nil_iff (s : TelemetrySnapshot) :
    s.battery2.as_dict = [] ↔
      s.getField .b2Cap = none ∧ s.getField .b2Remain = none ∧
      s.getField .b2Health = none ∧ s.getField .b2Temp = none ∧
      s.getField .b2Cycles = none ∧ s.getField .b2Volt = none ∧
      s.getField .b2Curr = none ∧ s.getField .b2Pct = none :=
  battery_as_dict_nil_iff s.battery2

/-- The top-level export has a `battery2` key iff the secondary battery has
any set field. -/
theorem mem_battery2_key_iff (s : TelemetrySnapshot) :
    "battery2" ∈ s.as_dict.map Prod.fst ↔ ¬ s.battery2.as_dict.isEmpty := by
  by_cases h2 : s.battery2.as_dict.isEmpty <;>
    by_cases hs : s.settings.as_dict.isEmpty <;>
    simp [TelemetrySnapshot.as_dict, h2, hs]

/-- `message_count` is always exported. -/
theorem mem_message_count (s : TelemetrySnapshot) :
    ("message_count", JVal.int s.message_count) ∈ s.as_dict := by
  simp [TelemetrySnapshot.as_dict]

/-- An assist level set to an enum member is exported under its `.name`. -/
theorem assist_name_mem (m : MotorState) (a : AssistLevel)
    (h : m.assist_level = some (.assist a)) :
    ("assist_level", JVal.str a.enumName) ∈ m.as_dict := by
  apply (pair_mem_dictOf _ _ _).mpr
  simp [MotorState.as_dict] at *
  simp [h, assistExport]

/-- An assist level holding a raw integer is exported unchanged. -/
theorem assist_int_mem (m : MotorState) (n : ℤ)
    (h : m.assist_level = some (.int n)) :
    ("assist_level", JVal.int n) ∈ m.as_dict := by
  apply (pair_mem_dictOf _ _ _).mpr
  simp [MotorState.as_dict] at *
  simp [h, assistExport, pyToJ]

/-- The secondary-battery dict is non-empty iff some message routed there. -/
theorem battery2_present_iff (ms : List ParsedMessage) :
    ¬ (applyAll {} ms).battery2.as_dict.isEmpty ↔
      ∃ m ∈ ms, m.sender = 0x04 ∧ batteryAccepts m.channel := by
  rw [List.isEmpty_iff, battery2_as_dict_nil_iff]
  constructor
  · intro h
    by_cases hr : ∃ m ∈ ms, m.sender = 0x04 ∧ batteryAccepts m.channel
    · exact hr
    · exfalso
      apply h
      push_neg at hr
      refine ⟨?_, ?_, ?_, ?_, ?_, ?_, ?_, ?_⟩ <;>
        · rw [← Option.not_isSome_iff_eq_none, getField_applyAll]
          simp only [getField_init, Option.isSome_none, Bool.false_eq_true, or_false]
          rintro ⟨m, hm, hk⟩
          simp only [FieldId.routeKey, Prod.mk.injEq] at hk
          exact hr m hm hk.1 (by rw [hk.2]; decide)
  · rintro ⟨m, hm, h4, hacc⟩ hall
    obtain ⟨n1, n2, n3, n4', n5, n6, n7, n8⟩ := hall
    have hacc' : m.channel = 0 ∨ m.channel = 1 ∨ m.channel = 2 ∨ m.channel = 3 ∨
        m.channel = 4 ∨ m.channel = 5 ∨ m.channel = 6 ∨ m.channel = 12 := by
      simp only [batteryAccepts, Bool.or_eq_true, decide_eq_true_eq] at hacc
      tauto
    rcases hacc' with h|h|h|h|h|h|h|h
    · exact absurd ((getField_applyAll ms {} .b2Cap).mpr
        (Or.inl ⟨m, hm, by simp [FieldId.routeKey, Prod.mk.injEq, h4, h]⟩)) (by simp [n1])
    · exact absurd ((getField_applyAll ms {} .b2Remain).mpr
        (Or.inl ⟨m, hm, by simp [FieldId.routeKey, Prod.mk.injEq, h4, h]⟩)) (by simp [n2])
    · exact absurd ((getField_applyAll ms {} .b2Health).mpr
        (Or.inl ⟨m, hm, by simp [FieldId.routeKey, Prod.mk.injEq, h4, h]⟩)) (by simp [n3])
    · exact absurd ((getField_applyAll ms {} .b2Temp).mpr
        (Or.inl ⟨m, hm, by simp [FieldId.routeKey, Prod.mk.injEq, h4, h]⟩)) (by simp [n4'])
    · exact absurd ((getField_applyAll ms {} .b2Cycles).mpr
        (Or.inl ⟨m, hm, by simp [FieldId.routeKey, Prod.mk.injEq, h4, h]⟩)) (by simp [n5])
    · exact absurd ((getField_applyAll ms {} .b2Volt).mpr
        (Or.inl ⟨m, hm, by simp [FieldId.routeKey, Prod.mk.injEq, h4, h]⟩)) (by simp [n6])
    · exact absurd ((getField_applyAll ms {} .b2Curr).mpr
        (Or.inl ⟨m, hm, by simp [FieldId.routeKey, Prod.mk.injEq, h4, h]⟩)) (by simp [n7])
    · exact absurd ((getField_applyAll ms {} .b2Pct).mpr
        (Or.inl ⟨m, hm, by simp [FieldId.routeKey, Prod.mk.injEq, h4, h]⟩)) (by simp [n8])

/-- With an unbounded queue (`maxsize = 0`), a parseable notification always
updates the snapshot and is always enqueued. -/
theorem notification_handler_ok (st : MonitorState) (h : st.maxsize = 0)
    (data : List Byte) (msg : ParsedMessage)
    (hp : parse_message data = .ok msg) :
    notification_handler st data =
      { snapshot := st.snapshot.update_from_message msg,
        queue := st.queue ++ [msg], maxsize := 0 } := by
  unfold notification_handler
  rw [hp]
  simp [queuePutNowait, h]

/-- Feeding n well-formed notifications grows the queue by n. -/
theorem fold_handler_growth (n : Nat) (st : MonitorState) (h : st.maxsize = 0) :
    ((List.replicate n ([0x00, 0x02, 0x01] : List Byte)).foldl
        notification_handler st).queue.length = st.queue.length + n := by
  induction n generalizing st with
  | zero => simp
  | succ k ih =>
    rw [List.replicate_succ, List.foldl_cons]
    have hmsg : parse_message ([0x00, 0x02, 0x01] : List Byte) =
        .ok { sender := 0, channel := 2, raw_value := 1, converted_value := .int 1,
              field_name := some "battery_health", unit := "%" } := rfl
    rw [notification_handler_ok st h _ _ hmsg, ih _ rfl]
    simp
    omega

/-- `take` of an append reads only the first list if it is long enough. -/
theorem take_append_left (l1 l2 : List Byte) (n : Nat) (h : n ≤ l1.length) :
    (l1 ++ l2).take n = l1.take n := by
  induction l1 generalizing n with
  | nil =>
    have hn : n = 0 := by simpa using h
    subst hn
    simp
  | cons a t ih =>
    cases n with
    | zero => simp
    | succ k =>
      simp only [List.cons_append, List.take_succ_cons]
      rw [ih k (by simpa using h)]

/-- C1: Accounting invariant of the aggregator: applying any sequence of N
decoded messages to a fresh snapshot yields `message_count = N`, an
`unknown_messages` (unrouted) list of length at most N, and N minus that
length equals the number of messages whose `(sender, channel)` was accepted
by a sub-state's channel field map — no applied message is lost. -/
theorem c1_accounting_invariant (ms : List ParsedMessage) :
    (applyAll {} ms).message_count = ms.length ∧
    (applyAll {} ms).unknown_messages.length ≤ ms.length ∧
    ms.length - (applyAll {} ms).unknown_messages.length =
      (ms.filter (fun m => accepted m)).length := by
  rcases applyAll_count_unknown ms {} with ⟨h1, h2⟩
  have hsplit : ms.length =
      (ms.filter (fun m => accepted m)).length +
        (ms.filter (fun m => !accepted m)).length := by
    simpa using @List.length_eq_length_filter_add _ ms (fun m => accepted m)
  refine ⟨by simpa using h1, ?_, ?_⟩
  · rw [h2]
    simpa using List.length_filter_le _ ms
  · rw [h2]
    simp only [List.nil_append]
    omega

/-- C2: Decode totality boundary: `parse_message` fails exactly on buffers
shorter than 3 bytes; a buffer of length ≥ 3 whose `(sender, channel)` is
not registered decodes with `field_name` absent, empty unit, and
`converted_value` the raw little-endian integer of all bytes from index 2. -/
theorem c2_decode_totality (data : List Byte) :
    ((∃ e, parse_message data = .error e) ↔ data.length < 3) ∧
    (∀ s c p rest, data = s :: c :: p :: rest →
      get_field_def s.val c.val = none →
      parse_message data =
        .ok { sender := s.val, channel := c.val,
              raw_value := leInt (p :: rest),
              converted_value := .int (leInt (p :: rest)),
              field_name := none, unit := "" }) := by
  constructor
  · match data with
    | [] => simp [parse_message]
    | [a] => simp [parse_message]
    | [a, b] => simp [parse_message]
    | a :: b :: c :: rest =>
      constructor
      · rintro ⟨e, he⟩
        simp only [parse_message] at he
        cases hgd : get_field_def a.val b.val <;> rw [hgd] at he <;> simp at he
      · intro h
        simp only [List.length_cons] at h
        omega
  · rintro s c p rest rfl hnone
    simp [parse_message, hnone]

/-- C2 witness: the byte buffer `09 09 09` has an unregistered header and
decodes to the raw passthrough. -/
theorem c2_decode_totality_witness :
    parse_message [(9 : Byte), 9, 9] =
      .ok { sender := 9, channel := 9, raw_value := 9,
            converted_value := .int 9, field_name := none, unit := "" } :=
  (c2_decode_totality [9, 9, 9]).2 9 9 9 [] rfl rfl

/-- C3: Round-trip header: for every source and channel byte and every
non-empty payload, decoding `build_request source channel ++ payload`
succeeds and echoes the source and channel. -/
theorem c3_roundtrip_header (s c : Byte) (payload : List Byte)
    (h : payload ≠ []) :
    ∃ msg, parse_message (build_request s c ++ payload) = .ok msg ∧
      msg.sender = s.val ∧ msg.channel = c.val := by
  rcases payload with _ | ⟨p, rest⟩
  · exact absurd rfl h
  · show ∃ msg, parse_message (s :: c :: p :: rest) = .ok msg ∧ _
    cases hgd : get_field_def s.val c.val with
    | some fd =>
      exact ⟨{ sender := s.val, channel := c.val,
               raw_value := leInt ((p :: rest).take fd.data_size),
               converted_value := fd.convert (leInt ((p :: rest).take fd.data_size)),
               field_name := some fd.name, unit := fd.unit },
             by simp [parse_message, hgd], rfl, rfl⟩
    | none =>
      exact ⟨{ sender := s.val, channel := c.val,
               raw_value := leInt (p :: rest),
               converted_value := .int (leInt (p :: rest)),
               field_name := none, unit := "" },
             by simp [parse_message, hgd], rfl, rfl⟩

/-- C3 witness at source 7, channel 7, payload `[1]`. -/
theorem c3_roundtrip_header_witness :
    ∃ msg, parse_message (build_request 7 7 ++ [1]) = .ok msg ∧
      msg.sender = (7 : Byte).val ∧ msg.channel = (7 : Byte).val :=
  c3_roundtrip_header 7 7 [1] (by simp)

/-- C4: Width determinism: for a registered `(sender, channel)` of width w
and a buffer whose payload already has at least w bytes, appending any
trailing bytes changes neither `raw_value` nor `converted_value`. -/
theorem c4_width_determinism (s c : Byte) (rest extra : List Byte)
    (fd : FieldDefinition) (hfd : get_field_def s.val c.val = some fd)
    (hlen : fd.data_size ≤ rest.length) (hne : rest ≠ []) :
    ∃ m1 m2,
      parse_message (s :: c :: rest) = .ok m1 ∧
      parse_message ((s :: c :: rest) ++ extra) = .ok m2 ∧
      m2.raw_value = m1.raw_value ∧ m2.converted_value = m1.converted_value := by
  rcases rest with _ | ⟨p, rest⟩
  · exact absurd rfl hne
  · have htake : ((p :: rest) ++ extra).take fd.data_size
        = (p :: rest).take fd.data_size :=
      take_append_left _ _ _ hlen
    refine ⟨{ sender := s.val, channel := c.val,
              raw_value := leInt ((p :: rest).take fd.data_size),
              converted_value := fd.convert (leInt ((p :: rest).take fd.data_size)),
              field_name := some fd.name, unit := fd.unit },
            { sender := s.val, channel := c.val,
              raw_value := leInt (((p :: rest) ++ extra).take fd.data_size),
              converted_value := fd.convert (leInt (((p :: rest) ++ extra).take fd.data_size)),
              field_name := some fd.name, unit := fd.unit }, ?_, ?_, ?_, ?_⟩
    · simp [parse_message, hfd]
    · simp [parse_message, hfd]
    · simp only [List.cons_append] at htake
      simp [htake]
    · simp only [List.cons_append] at htake
      simp [htake]

/-- C4 witness: battery capacity (width 2) with exactly 2 payload bytes and
one trailing byte appended. -/
theorem c4_width_determinism_witness :
    ∃ m1 m2,
      parse_message [(0 : Byte), 0, 0x50, 0] = .ok m1 ∧
      parse_message ([(0 : Byte), 0, 0x50, 0] ++ [7]) = .ok m2 ∧
      m2.raw_value = m1.raw_value ∧ m2.converted_value = m1.converted_value :=
  c4_width_determinism 0 0 [0x50, 0] [7]
    ⟨0x00, 0x00, "battery_capacity_wh", "Wh", 2, convWh⟩ rfl (by simp) (by simp)

/-- C10: Implicit short-payload behaviour: a registered field whose buffer
carries fewer than `data_size` payload bytes still decodes; the slice is
silently truncated and `convert` is applied to the truncated raw value. -/
theorem c10_short_payload (s c p : Byte) (rest : List Byte)
    (fd : FieldDefinition) (hfd : get_field_def s.val c.val = some fd)
    (hshort : (p :: rest).length < fd.data_size) :
    parse_message (s :: c :: p :: rest) =
      .ok { sender := s.val, channel := c.val,
            raw_value := leInt (p :: rest),
            converted_value := fd.convert (leInt (p :: rest)),
            field_name := some fd.name, unit := fd.unit } := by
  have htake : (p :: rest).take fd.data_size = p :: rest :=
    List.take_of_length_le (le_of_lt hshort)
  simp [parse_message, hfd, htake]

/-- C10 witness: battery capacity (width 2) with a single payload byte:
the raw value is the one available byte and the conversion is applied to
it (`round(80 * 1.1111) = 89`). -/
theorem c10_short_payload_witness :
    parse_message [(0 : Byte), 0, 0x50] =
      .ok { sender := 0, channel := 0, raw_value := 80,
            converted_value := convWh 80,
            field_name := some "battery_capacity_wh", unit := "Wh" } :=
  c10_short_payload 0 0 0x50 []
    ⟨0x00, 0x00, "battery_capacity_wh", "Wh", 2, convWh⟩ rfl (by simp)

/-- C5: Conversion exactness on concrete vectors: `00 00 c2 01` gives raw
450 and converted 500 ("battery_capacity_wh", "Wh"); `00 05 50` gives raw
80 and converted 36.0 ("battery_voltage"); `01 02 fa 00` gives raw 250 and
converted 25.0 ("speed", "km/h"). -/
theorem c5_conversion_vectors :
    parse_message [0x00, 0x00, 0xc2, 0x01] =
      .ok { sender := 0, channel := 0, raw_value := 450,
            converted_value := .int 500,
            field_name := some "battery_capacity_wh", unit := "Wh" } ∧
    parse_message [0x00, 0x05, 0x50] =
      .ok { sender := 0, channel := 5, raw_value := 80,
            converted_value := .float 36,
            field_name := some "battery_voltage", unit := "V" } ∧
    parse_message [0x01, 0x02, 0xfa, 0x00] =
      .ok { sender := 1, channel := 2, raw_value := 250,
            converted_value := .float 25,
            field_name := some "speed", unit := "km/h" } := by
  refine ⟨?_, ?_, ?_⟩
  · have h : parse_message [0x00, 0x00, 0xc2, 0x01] =
        .ok { sender := 0, channel := 0, raw_value := 450,
              converted_value := convWh 450,
              field_name := some "battery_capacity_wh", unit := "Wh" } := rfl
    rw [h]
    simp only [convWh, Except.ok.injEq, ParsedMessage.mk.injEq, PyValue.int.injEq]
    unfold pyRound
    norm_num
  · have h : parse_message [0x00, 0x05, 0x50] =
        .ok { sender := 0, channel := 5, raw_value := 80,
              converted_value := convVoltage 80,
              field_name := some "battery_voltage", unit := "V" } := rfl
    rw [h]
    simp only [convVoltage, Except.ok.injEq, ParsedMessage.mk.injEq, PyValue.float.injEq]
    norm_num
  · have h : parse_message [0x01, 0x02, 0xfa, 0x00] =
        .ok { sender := 1, channel := 2, raw_value := 250,
              converted_value := convTenth 250,
              field_name := some "speed", unit := "km/h" } := rfl
    rw [h]
    simp only [convTenth, Except.ok.injEq, ParsedMessage.mk.injEq, PyValue.float.injEq]
    norm_num

/-- C6: Assist-level conversion: the registered field at `(0x01, 0x05)` maps
raw 0,1,2,3 to the named levels OFF, ECO, TRAIL, TURBO and passes every
other raw value through unchanged; bytes `01 05 02 00` decode to the
symbolic level TRAIL. -/
theorem c6_assist_level :
    (∃ fd, get_field_def 0x01 0x05 = some fd ∧
      ∀ v : Nat, fd.convert v =
        if v = 0 then .assist .OFF
        else if v = 1 then .assist .ECO
        else if v = 2 then .assist .TRAIL
        else if v = 3 then .assist .TURBO
        else .int v) ∧
    parse_message [0x01, 0x05, 0x02, 0x00] =
      .ok { sender := 1, channel := 5, raw_value := 2,
            converted_value := .assist .TRAIL,
            field_name := some "assist_level", unit := "" } := by
  constructor
  · refine ⟨⟨0x01, 0x05, "assist_level", "", 2, convAssist⟩, rfl, ?_⟩
    intro v
    show convAssist v = _
    unfold convAssist AssistLevel.ofNat?
    split_ifs <;> rfl
  · rfl

/-- C7: Secondary-battery mirror: the registry has exactly 31 distinct
entries; for each battery channel the sender-0x04 entry shares the
sender-0x00 entry's payload width and conversion function, renamed by
replacing the `battery_` prefix with `battery2_`; bytes `04 0c 50` decode
to converted 80 under "battery2_charge_percent". -/
theorem c7_secondary_battery_mirror (ch : Nat) (hch : ch ∈ batteryChannelList) :
    FIELD_DEFS.length = 31 ∧
    (FIELD_DEFS.map (fun fd => (fd.sender, fd.channel))).Nodup ∧
    (∃ fd1 fd2, get_field_def 0x00 ch = some fd1 ∧
      get_field_def 0x04 ch = some fd2 ∧
      fd2.data_size = fd1.data_size ∧ fd2.convert = fd1.convert ∧
      fd2.name = strReplace fd1.name "battery_" "battery2_") ∧
    parse_message [0x04, 0x0C, 0x50] =
      .ok { sender := 4, channel := 12, raw_value := 80,
            converted_value := .int 80,
            field_name := some "battery2_charge_percent", unit := "%" } := by
  refine ⟨by decide, by decide, ?_, rfl⟩
  fin_cases hch <;> exact ⟨_, _, rfl, rfl, rfl, rfl, rfl⟩

/-- C7 witness at the charge-percent channel `0x0C`. -/
theorem c7_secondary_battery_mirror_witness :
    (0x0C ∈ batteryChannelList) ∧
    (∃ fd1 fd2, get_field_def 0x00 0x0C = some fd1 ∧
      get_field_def 0x04 0x0C = some fd2 ∧
      fd2.data_size = fd1.data_size ∧ fd2.convert = fd1.convert ∧
      fd2.name = strReplace fd1.name "battery_" "battery2_") :=
  ⟨by decide, (c7_secondary_battery_mirror 0x0C (by decide)).2.2.1⟩

/-- C8: Export postcondition: for any applied message sequence, the export
always contains `message_count`; each sub-state's section contains exactly
the keys of fields some message has set; the `battery2` section appears iff
some secondary-battery field was set; and the assist level is exported by
its symbolic name when it is a named level and by its raw integer
otherwise. -/
theorem c8_export_postcondition (ms : List ParsedMessage) :
    (("message_count", JVal.int (applyAll {} ms).message_count) ∈
        (applyAll {} ms).as_dict) ∧
    (∀ f : FieldId,
      f.exportKey ∈ (sectionDict (applyAll {} ms) f.subState).map Prod.fst ↔
        ∃ m ∈ ms, (m.sender, m.channel) = f.routeKey) ∧
    ("battery2" ∈ (applyAll {} ms).as_dict.map Prod.fst ↔
        ∃ m ∈ ms, m.sender = 0x04 ∧ batteryAccepts m.channel) ∧
    (∀ a : AssistLevel,
      (applyAll {} ms).motor.assist_level = some (.assist a) →
        ("assist_level", JVal.str a.enumName) ∈ (applyAll {} ms).motor.as_dict) ∧
    (∀ n : ℤ,
      (applyAll {} ms).motor.assist_level = some (.int n) →
        ("assist_level", JVal.int n) ∈ (applyAll {} ms).motor.as_dict) := by
  refine ⟨mem_message_count _, ?_, ?_, ?_, ?_⟩
  · intro f
    rw [mem_section_keys_iff, getField_applyAll]
    simp [getField_init]
  · rw [mem_battery2_key_iff, battery2_present_iff]
  · intro a ha
    exact assist_name_mem _ a ha
  · intro n hn
    exact assist_int_mem _ n hn

/-- C8 witness: after one assist-level TRAIL message the motor section
exports the symbolic name. -/
theorem c8_export_postcondition_witness :
    ("assist_level", JVal.str "TRAIL") ∈
      (applyAll {} [{ sender := 1, channel := 5, raw_value := 2,
                      converted_value := .assist .TRAIL,
                      field_name := some "assist_level", unit := "" }]).motor.as_dict :=
  (c8_export_postcondition _).2.2.2.1 .TRAIL rfl

/-- C9 counterexample: the delivery queue of a fresh monitor is NOT
bounded: `asyncio.Queue()` is constructed with its default `maxsize = 0`
(unbounded in Python), so no bound B caps the queue length as valid
notifications keep arriving. -/
theorem c9_queue_not_bounded :
    ¬ ∃ B : Nat, ∀ n : Nat,
        ((List.replicate n ([0x00, 0x02, 0x01] : List Byte)).foldl
            notification_handler MonitorState.init).queue.length ≤ B := by
  rintro ⟨B, hB⟩
  have h := hB (B + 1)
  rw [fold_handler_growth (B + 1) MonitorState.init rfl] at h
  have hq : MonitorState.init.queue.length = 0 := rfl
  omega

/-- C9 (amended): the delivery queue is created unbounded, so a parsed
message is never dropped from the pull stream: the handler first updates
the snapshot with the message and then always succeeds in enqueueing it. -/
theorem c9_unbounded_queue_no_drop (st : MonitorState) (h : st.maxsize = 0)
    (data : List Byte) (msg : ParsedMessage)
    (hp : parse_message data = .ok msg) :
    notification_handler st data =
      { snapshot := st.snapshot.update_from_message msg,
        queue := st.queue ++ [msg], maxsize := 0 } :=
  notification_handler_ok st h data msg hp

/-- C9 witness: one battery-health notification on a fresh monitor. -/
theorem c9_unbounded_queue_no_drop_witness :
    notification_handler MonitorState.init [0x00, 0x02, 0x01] =
      { snapshot := TelemetrySnapshot.update_from_message {}
          { sender := 0, channel := 2, raw_value := 1, converted_value := .int 1,
            field_name := some "battery_health", unit := "%" },
        queue := [{ sender := 0, channel := 2, raw_value := 1,
                    converted_value := .int 1,
                    field_name := some "battery_health", unit := "%" }],
        maxsize := 0 } :=
  c9_unbounded_queue_no_drop MonitorState.init rfl _ _ rfl
